import Mathlib

/-!
Verification of the smart-context engine of `backend-v2`
(`services/context_builder.py`): relevance scoring and budget-constrained
context assembly.  Python strings are modelled by `String`, Python `float`
by `ℚ` (the scoring arithmetic is exact decimal arithmetic), Python `int`
by `ℤ` (token budgets may be negative) or `ℕ` (lengths and counts), and
Python `dict[str, str]` by an association list `List (String × String)`
in insertion order (CPython dicts iterate in insertion order).
-/

/-- Model of Python `str.lower()` (`Char.toLower` lowers the ASCII letters,
which is what every scored input in the claims exercises). -/
def pyLower (s : String) : String :=
  (s.toList.map Char.toLower).asString

/-- Model of the Python substring test `needle in hay`: `needle` occurs as a
contiguous substring of `hay` (the empty needle always occurs). -/
def hasSubstr (needle : List Char) : List Char → Bool
  | [] => needle.isEmpty
  | c :: t => needle.isPrefixOf (c :: t) || hasSubstr needle t

/-- Python `needle in hay` on strings. -/
def pyIn (needle hay : String) : Bool :=
  hasSubstr needle.toList hay.toList

/-- Python `s.startswith(pre)`. -/
def pyStarts (s pre : String) : Bool :=
  pre.toList.isPrefixOf s.toList

/-- Python `s.endswith(suf)`. -/
def pyEnds (s suf : String) : Bool :=
  suf.toList.isSuffixOf s.toList

/-- Model of Python `file_path.split("/")[-1]`: the last `/`-separated
segment (empty when the path ends in `/`). -/
def lastSegAux : List Char → List Char → List Char
  | [], acc => acc.reverse
  | c :: cs, acc => if c = '/' then lastSegAux cs [] else lastSegAux cs (c :: acc)

/-- Python `file_path.split("/")[-1]`. -/
def lastSeg (s : String) : String :=
  (lastSegAux s.toList []).asString

/-- Characters matched by the regex class of
`re.split(r'[\s\-_.,;:!?()]+', ...)` in `_extract_keywords`
(context_builder.py line 127): Python `\s` (the ASCII and Unicode
whitespace characters) together with the fixed punctuation set. -/
def SEP_CHARS : List Char :=
  [' ', '\t', '\n', '\r', '\x0b', '\x0c',
   '\u001c', '\u001d', '\u001e', '\u001f', '\u0085', '\u00a0', '\u1680',
   '\u2000', '\u2001', '\u2002', '\u2003', '\u2004', '\u2005', '\u2006',
   '\u2007', '\u2008', '\u2009', '\u200a', '\u2028', '\u2029', '\u202f',
   '\u205f', '\u3000',
   '-', '_', '.', ',', ';', ':', '!', '?', '(', ')']

/-- Whether a character is a separator for keyword extraction. -/
def isSepChar (c : Char) : Bool := SEP_CHARS.contains c

/-- Model of `re.split(r'[...]+', s)`: split at maximal runs of separator
characters.  The accumulator is `some acc` while inside a token (collected
in reverse) and `none` immediately after a separator run; like `re.split`,
a leading/trailing separator run yields a leading/trailing empty token and
the empty input yields `[""]`. -/
def splitAux (p : Char → Bool) : List Char → Option (List Char) → List (List Char)
  | [], some acc => [acc.reverse]
  | [], none => [[]]
  | c :: cs, some acc =>
    if p c then acc.reverse :: splitAux p cs none else splitAux p cs (some (c :: acc))
  | c :: cs, none =>
    if p c then splitAux p cs none else splitAux p cs (some [c])

/-- `STOP_WORDS` (context_builder.py line 59). -/
def STOP_WORDS : List String :=
  ["the", "a", "an", "to", "make", "change", "update", "add", "fix",
   "is", "it", "in", "on", "for"]

/-- `ROUTE_KEYWORDS` (context_builder.py line 62). -/
def ROUTE_KEYWORDS : List String :=
  ["page", "route", "navigate", "navigation", "home", "homepage", "/"]

/-- `FILE_TYPE_PRIORITIES` (context_builder.py lines 50-55). -/
def FILE_TYPE_PRIORITIES : List (String × ℚ) :=
  [(".tsx", 1.0), (".ts", 0.8), (".css", 0.6), (".scss", 0.6)]

/-- `DEFAULT_FILE_PRIORITY` (context_builder.py line 56). -/
def DEFAULT_FILE_PRIORITY : ℚ := 0.4

/-- `MAX_CONTEXT_TOKENS` (context_builder.py line 45). -/
def MAX_CONTEXT_TOKENS : ℤ := 4000

/-- `MAX_FULL_FILES` (context_builder.py line 46). -/
def MAX_FULL_FILES : ℤ := 5

/-- `MIN_SCORE_THRESHOLD` (context_builder.py line 47). -/
def MIN_SCORE_THRESHOLD : ℚ := 0.1

/-- `RelevanceScorer.__init__` state: the optional recency list
(context_builder.py lines 76-83). -/
structure RelevanceScorer where
  recent_files : List String := []
deriving DecidableEq, Repr

/-- `RelevanceScorer._extract_keywords` (context_builder.py lines 117-135):
lowercase, split on whitespace/punctuation runs, keep words of length at
least 3 that are not stop words. -/
def extractKeywords (query : String) : List String :=
  let words := (splitAux isSepChar (pyLower query).toList (some [])).map
    (fun cs => cs.asString)
  words.filter (fun w => decide (3 ≤ w.length) && !(STOP_WORDS.contains w))

/-- `RelevanceScorer._calculate_keyword_score`
(context_builder.py lines 137-154). -/
def calculateKeywordScore (content : String) (keywords : List String) : ℚ :=
  if keywords = [] then 0
  else
    let content_lower := pyLower content
    let matched := keywords.countP (fun kw => pyIn kw content_lower)
    min 1 ((matched : ℚ) / (keywords.length : ℚ))

/-- Model of `re.search(r'\.[a-zA-Z]+$', s)`: the match exists exactly when
`s` ends in a dot followed by one or more ASCII letters, and it is that
dot-plus-letters suffix. -/
def extSuffix (s : String) : Option String :=
  let rev := s.toList.reverse
  let letters := rev.takeWhile Char.isAlpha
  if letters.isEmpty then none
  else
    match rev.drop letters.length with
    | '.' :: _ => some (('.' :: letters.reverse).asString)
    | _ => none

/-- `RelevanceScorer._get_file_type_priority`
(context_builder.py lines 156-171). -/
def getFileTypePriority (file_path : String) : ℚ :=
  match extSuffix file_path with
  | none => DEFAULT_FILE_PRIORITY
  | some ext => (FILE_TYPE_PRIORITIES.lookup (pyLower ext)).getD DEFAULT_FILE_PRIORITY

/-- Model of `re.sub(r'\.[a-zA-Z]+$', '', filename)`: strip a trailing
dot-plus-ASCII-letters extension when present. -/
def stripExt (s : String) : String :=
  let rev := s.toList.reverse
  let letters := rev.takeWhile Char.isAlpha
  if letters.isEmpty then s
  else
    match rev.drop letters.length with
    | '.' :: rest => rest.reverse.asString
    | _ => s

/-- `RelevanceScorer._calculate_component_match`
(context_builder.py lines 173-191). -/
def calculateComponentMatch (file_path query : String) : ℚ :=
  let filename := lastSeg file_path
  let component_name := pyLower (stripExt filename)
  if component_name ≠ "" ∧ 3 ≤ component_name.length ∧
      pyIn component_name (pyLower query) then 0.3
  else 0

/-- `RelevanceScorer._calculate_route_bonus`
(context_builder.py lines 193-214). -/
def calculateRouteBonus (file_path query : String) : ℚ :=
  let query_lower := pyLower query
  let is_route_query := ROUTE_KEYWORDS.any (fun kw => pyIn kw query_lower)
  if !is_route_query then 0
  else
    let filename := pyLower (lastSeg file_path)
    if filename ∈ (["page.tsx", "layout.tsx", "page.ts", "layout.ts"] : List String)
    then 0.2 else 0

/-- `RelevanceScorer._calculate_recency_bonus`
(context_builder.py lines 216-236): `0.15 * 0.7 ** position` for the
zero-based first-occurrence position in the recency list, `0.0` when the
list is empty or the path is absent. -/
def calculateRecencyBonus (scorer : RelevanceScorer) (file_path : String) : ℚ :=
  if scorer.recent_files = [] ∨ file_path ∉ scorer.recent_files then 0
  else
    let max_bonus : ℚ := 0.15
    let decay_factor : ℚ := 0.7
    max_bonus * decay_factor ^ (scorer.recent_files.indexOf file_path)

/-- `RelevanceScorer.score_file` (context_builder.py lines 85-115):
weighted combination of the five signals, clamped to the range 0.0-1.0. -/
def scoreFile (scorer : RelevanceScorer) (file_path file_content query : String) : ℚ :=
  let keywords := extractKeywords query
  let keyword_score := calculateKeywordScore file_content keywords
  let file_type_score := getFileTypePriority file_path
  let component_score := calculateComponentMatch file_path query
  let route_score := calculateRouteBonus file_path query
  let recency_score := calculateRecencyBonus scorer file_path
  let final_score :=
    keyword_score * 0.4 + file_type_score * 0.25 + component_score * 0.2 +
    route_score * 0.1 + recency_score * 0.05
  max 0 (min 1 final_score)

/-- `FileContent` dataclass (context_builder.py lines 243-254). -/
structure FileContent where
  path : String
  content : String
  score : ℚ
deriving DecidableEq, Repr

/-- `FileSummary` dataclass (context_builder.py lines 257-270). -/
structure FileSummary where
  path : String
  line_count : ℕ
  purpose : String
  score : ℚ
deriving DecidableEq, Repr

/-- `SmartContext` dataclass (context_builder.py lines 273-284). -/
structure SmartContext where
  full_files : List FileContent := []
  summaries : List FileSummary := []
  token_count : ℤ := 0
deriving DecidableEq, Repr

/-- `estimate_tokens` (context_builder.py lines 291-305): `len(text) // 4`,
with `0` for the empty string. -/
def estimateTokens (text : String) : ℕ :=
  if text = "" then 0 else text.length / 4

/-- `estimate_file_tokens` (context_builder.py lines 308-326): tokens of the
markdown-formatted file, a header line with the path plus a fenced
code-block around the content. -/
def estimateFileTokens (file_path content : String) : ℕ :=
  let formatted := "### " ++ file_path ++ "\n```\n" ++ content ++ "\n```\n"
  estimateTokens formatted

/-- `detect_file_purpose` (context_builder.py lines 329-378). -/
def detectFilePurpose (file_path : String) (content : String := "") : String :=
  let path_lower := pyLower file_path
  let filename := pyLower (lastSeg file_path)
  if filename ∈ (["page.tsx", "page.ts"] : List String) then "Page component"
  else if filename ∈ (["layout.tsx", "layout.ts"] : List String) then "Layout component"
  else if pyIn "/components/" path_lower || pyStarts path_lower "components/" then
    "React component"
  else if pyIn "/hooks/" path_lower || pyStarts path_lower "hooks/" then "React hook"
  else if pyIn "/lib/" path_lower || pyStarts path_lower "lib/" then "Utility library"
  else if pyIn "/utils/" path_lower || pyStarts path_lower "utils/" then "Utility functions"
  else if pyIn "/types/" path_lower || pyStarts path_lower "types/" then "Type definitions"
  else if pyIn "/styles/" path_lower || pyStarts path_lower "styles/" then "Stylesheet"
  else if pyIn "/api/" path_lower || pyStarts path_lower "api/" then "API route"
  else if pyIn "/services/" path_lower || pyStarts path_lower "services/" then "Service module"
  else if pyEnds filename ".css" || pyEnds filename ".scss" then "Stylesheet"
  else if pyEnds filename ".tsx" then "React component"
  else if pyEnds filename ".ts" then "TypeScript module"
  else if pyEnds filename ".json" then "Configuration"
  else if pyEnds filename ".md" then "Documentation"
  else "Source file"

/-- `ContextBuilder.__init__` state (context_builder.py lines 393-411). -/
structure ContextBuilder where
  scorer : RelevanceScorer := {}
  max_tokens : ℤ := MAX_CONTEXT_TOKENS
  max_full_files : ℤ := MAX_FULL_FILES
  min_score_threshold : ℚ := MIN_SCORE_THRESHOLD
deriving DecidableEq, Repr

/-- `ContextBuilder.__init__` (context_builder.py lines 393-411): the
constructor stores its arguments unchanged (a `None` scorer becomes a
default `RelevanceScorer()`); the source performs no validation of the
budgets and raises nothing. -/
def ContextBuilder.init (scorer : Option RelevanceScorer := none)
    (max_tokens : ℤ := MAX_CONTEXT_TOKENS)
    (max_full_files : ℤ := MAX_FULL_FILES)
    (min_score_threshold : ℚ := MIN_SCORE_THRESHOLD) : ContextBuilder :=
  ⟨scorer.getD {}, max_tokens, max_full_files, min_score_threshold⟩

/-- The effective token budget of one `build_context` call
(context_builder.py line 435): Python `max_tokens or self.max_tokens`,
where `None` and `0` are falsy, so a zero override falls back to the
configured default and any non-zero override (negative included) is used. -/
def effectiveMaxTokens (max_tokens : Option ℤ) (dflt : ℤ) : ℤ :=
  match max_tokens with
  | none => dflt
  | some v => if v = 0 then dflt else v

/-- Python `list.sort(key=lambda x: x[2], reverse=True)` comparison on the
scored `(path, content, score)` triples: descending score. -/
def scoreRel (x y : String × String × ℚ) : Prop := y.2.2 ≤ x.2.2

instance : DecidableRel scoreRel :=
  fun x y => inferInstanceAs (Decidable (y.2.2 ≤ x.2.2))

instance : IsTotal (String × String × ℚ) scoreRel :=
  ⟨fun a b => le_total b.2.2 a.2.2⟩

instance : IsTrans (String × String × ℚ) scoreRel :=
  ⟨fun _ _ _ hab hbc => hbc.trans hab⟩

/-- The selection loop of `ContextBuilder.build_context`
(context_builder.py lines 454-483), with the running mutable state made
explicit: `tc` is `token_count` so far and `nfull` is `len(full_files)` so
far.  A file below the threshold is skipped; a file that fits both the
token budget and the full-file cap is appended to `full_files` (its cost
added to the running total); every other file is appended to `summaries`
with its line count (`content.count('\n') + 1`) and detected purpose. -/
def buildLoop (thr : ℚ) (eff maxff : ℤ) :
    List (String × String × ℚ) → ℤ → ℕ → List FileContent × List FileSummary × ℤ
  | [], tc, _ => ([], [], tc)
  | (path, content, score) :: rest, tc, nfull =>
    if score < thr then buildLoop thr eff maxff rest tc nfull
    else
      let file_tokens : ℤ := (estimateFileTokens path content : ℤ)
      if tc + file_tokens ≤ eff ∧ (nfull : ℤ) < maxff then
        let r := buildLoop thr eff maxff rest (tc + file_tokens) (nfull + 1)
        (⟨path, content, score⟩ :: r.1, r.2.1, r.2.2)
      else
        let r := buildLoop thr eff maxff rest tc nfull
        (r.1,
         ⟨path, content.toList.count '\n' + 1, detectFilePurpose path content, score⟩ :: r.2.1,
         r.2.2)

/-- `ContextBuilder.build_context` (context_builder.py lines 413-498).
An empty file map returns an empty `SmartContext`.  Otherwise every file is
scored, the scored list is sorted by score descending (Python `list.sort`
is a stable sort, and with `reverse=True` equal-scored elements still keep
their original relative order; this is modelled by the stable
`List.insertionSort` on the descending relation `scoreRel`), and the
selection loop fills `full_files` and `summaries` within the budget. -/
def buildContext (b : ContextBuilder) (generated_files : List (String × String))
    (query : String) (max_tokens : Option ℤ := none) : SmartContext :=
  if generated_files = [] then {}
  else
    let eff := effectiveMaxTokens max_tokens b.max_tokens
    let scored_files := generated_files.map
      (fun pc => (pc.1, pc.2, scoreFile b.scorer pc.1 pc.2 query))
    let sorted_files := scored_files.insertionSort scoreRel
    let r := buildLoop b.min_score_threshold eff b.max_full_files sorted_files 0 0
    ⟨r.1, r.2.1, r.2.2⟩

/-- `ContextBuilder.build_context` with the post-call state of every object
the caller shares with the callee made explicit: the method body reads
`self.scorer`, `self.max_tokens`, `self.max_full_files` and
`self.min_score_threshold` and iterates `generated_files.items()`, but
assigns to none of them (its only writes are to the fresh local lists
`scored_files`, `full_files`, `summaries` and the local counters), so the
translation returns the builder, the file map and the query alongside the
result. -/
def buildContextCall (b : ContextBuilder) (generated_files : List (String × String))
    (query : String) (max_tokens : Option ℤ := none) :
    SmartContext × ContextBuilder × List (String × String) × String :=
  if generated_files = [] then ({}, b, generated_files, query)
  else
    let eff := effectiveMaxTokens max_tokens b.max_tokens
    let scored_files := generated_files.map
      (fun pc => (pc.1, pc.2, scoreFile b.scorer pc.1 pc.2 query))
    let sorted_files := scored_files.insertionSort scoreRel
    let r := buildLoop b.min_score_threshold eff b.max_full_files sorted_files 0 0
    (⟨r.1, r.2.1, r.2.2⟩, b, generated_files, query)

/-! ### Invariants of the selection loop -/

/-- Running-state invariant of the selection loop: when the incoming token
count is within the budget and the incoming full-file count is within the
cap, the final token count stays within the budget and the number of files
added in full stays within the cap. -/
theorem buildLoop_bounds (thr : ℚ) (eff maxff : ℤ)
    (l : List (String × String × ℚ)) :
    ∀ (tc : ℤ) (nfull : ℕ), tc ≤ eff → (nfull : ℤ) ≤ maxff →
      (buildLoop thr eff maxff l tc nfull).2.2 ≤ eff ∧
      ((buildLoop thr eff maxff l tc nfull).1.length : ℤ) + (nfull : ℤ) ≤ maxff := by
  induction l with
  | nil =>
    intro tc nfull htc hn
    simpa [buildLoop] using ⟨htc, hn⟩
  | cons head rest ih =>
    obtain ⟨p, c, s⟩ := head
    intro tc nfull htc hn
    simp only [buildLoop]
    split_ifs with h1 h2
    · exact ih tc nfull htc hn
    · have hn2 : ((nfull + 1 : ℕ) : ℤ) ≤ maxff := by push_cast; omega
      have := ih (tc + (estimateFileTokens p c : ℤ)) (nfull + 1) h2.1 hn2
      refine ⟨this.1, ?_⟩
      simp only [List.length_cons]
      push_cast
      push_cast at this
      omega
    · have := ih tc nfull htc hn
      simpa using this

/-- The final token count of the selection loop is the incoming token count
plus the total estimated cost of the files selected in full. -/
theorem buildLoop_token_sum (thr : ℚ) (eff maxff : ℤ)
    (l : List (String × String × ℚ)) :
    ∀ (tc : ℤ) (nfull : ℕ),
      (buildLoop thr eff maxff l tc nfull).2.2 =
        tc + ((buildLoop thr eff maxff l tc nfull).1.map
          (fun f => (estimateFileTokens f.path f.content : ℤ))).sum := by
  induction l with
  | nil => intro tc nfull; simp [buildLoop]
  | cons head rest ih =>
    obtain ⟨p, c, s⟩ := head
    intro tc nfull
    simp only [buildLoop]
    split_ifs with h1 h2
    · exact ih tc nfull
    · simp only [List.map_cons, List.sum_cons]
      rw [ih (tc + (estimateFileTokens p c : ℤ)) (nfull + 1)]
      ring
    · simpa using ih tc nfull

/-- The paths of the two output lists of the selection loop, taken
together, are a permutation of the paths of the input files that score at
least the threshold. -/
theorem buildLoop_perm (thr : ℚ) (eff maxff : ℤ)
    (l : List (String × String × ℚ)) :
    ∀ (tc : ℤ) (nfull : ℕ),
      ((buildLoop thr eff maxff l tc nfull).1.map FileContent.path ++
       (buildLoop thr eff maxff l tc nfull).2.1.map FileSummary.path).Perm
        ((l.filter (fun t => decide (thr ≤ t.2.2))).map (fun t => t.1)) := by
  induction l with
  | nil => intro tc nfull; simp [buildLoop]
  | cons head rest ih =>
    obtain ⟨p, c, s⟩ := head
    intro tc nfull
    simp only [buildLoop]
    split_ifs with h1 h2
    · have hkeep : ¬ thr ≤ s := not_le.mpr h1
      simpa [List.filter_cons, hkeep] using ih tc nfull
    · have hkeep : thr ≤ s := not_lt.mp h1
      simpa [List.filter_cons, hkeep] using (ih (tc + (estimateFileTokens p c : ℤ)) (nfull + 1)).cons p
    · have hkeep : thr ≤ s := not_lt.mp h1
      refine List.Perm.trans List.perm_middle ?_
      simpa [List.filter_cons, hkeep] using (ih tc nfull).cons p

/-- Each output list of the selection loop, projected to (path, score)
pairs, is a sublist (in order) of the input list so projected: the loop
walks the input once and never reorders it. -/
theorem buildLoop_sublist (thr : ℚ) (eff maxff : ℤ)
    (l : List (String × String × ℚ)) :
    ∀ (tc : ℤ) (nfull : ℕ),
      ((buildLoop thr eff maxff l tc nfull).1.map (fun f => (f.path, f.score))).Sublist
        (l.map (fun t => (t.1, t.2.2))) ∧
      ((buildLoop thr eff maxff l tc nfull).2.1.map (fun f => (f.path, f.score))).Sublist
        (l.map (fun t => (t.1, t.2.2))) := by
  induction l with
  | nil => intro tc nfull; simp [buildLoop]
  | cons head rest ih =>
    obtain ⟨p, c, s⟩ := head
    intro tc nfull
    simp only [buildLoop]
    split_ifs with h1 h2
    · exact ⟨(ih tc nfull).1.cons _, (ih tc nfull).2.cons _⟩
    · refine ⟨?_, ((ih _ _).2).cons _⟩
      simpa using ((ih (tc + (estimateFileTokens p c : ℤ)) (nfull + 1)).1).cons₂ (p, s)
    · refine ⟨((ih tc nfull).1).cons _, ?_⟩
      simpa using ((ih tc nfull).2).cons₂ (p, s)

/-- Inserting a triple into a list with `orderedInsert scoreRel` commutes
with filtering for any fixed score value `c`: the elements passed over by
the insertion all have a score strictly above the inserted one, so they
never share its score class. -/
theorem orderedInsert_filter_score (c : ℚ) (a : String × String × ℚ)
    (L : List (String × String × ℚ)) :
    (L.orderedInsert scoreRel a).filter (fun t => decide (t.2.2 = c)) =
      if a.2.2 = c then a :: L.filter (fun t => decide (t.2.2 = c))
      else L.filter (fun t => decide (t.2.2 = c)) := by
  induction L with
  | nil => simp [List.orderedInsert, List.filter_cons]
  | cons b L' ih =>
    by_cases hr : scoreRel a b
    · simp only [List.orderedInsert, if_pos hr]
      by_cases hac : a.2.2 = c <;> simp [List.filter_cons, hac]
    · have hlt : a.2.2 < b.2.2 := not_le.mp hr
      simp only [List.orderedInsert, if_neg hr]
      by_cases hac : a.2.2 = c
      · have hbc : ¬ b.2.2 = c := by
          intro hb; rw [hac] at hlt; rw [hb] at hlt; exact lt_irrefl c hlt
        simp [List.filter_cons, hbc, ih, hac]
      · by_cases hbc : b.2.2 = c <;> simp [List.filter_cons, hbc, ih, hac]

/-- Stability of the modelled sort: for every fixed score value `c`, the
equal-score class of the sorted list is exactly the equal-score class of
the input list, in input order. -/
theorem insertionSort_filter_score (c : ℚ) (l : List (String × String × ℚ)) :
    ((l.insertionSort scoreRel).filter (fun t => decide (t.2.2 = c))) =
      l.filter (fun t => decide (t.2.2 = c)) := by
  induction l with
  | nil => simp
  | cons a l' ih =>
    simp only [List.insertionSort]
    rw [orderedInsert_filter_score]
    by_cases hac : a.2.2 = c <;> simp [List.filter_cons, hac, ih]

/-- With a non-positive full-file cap and a zero incoming full-file count,
the selection loop admits no file in full. -/
theorem buildLoop_full_nil (thr : ℚ) (eff maxff : ℤ) (hmf : maxff ≤ 0)
    (l : List (String × String × ℚ)) :
    ∀ (tc : ℤ), (buildLoop thr eff maxff l tc 0).1 = [] := by
  induction l with
  | nil => intro tc; simp [buildLoop]
  | cons head rest ih =>
    obtain ⟨p, c, s⟩ := head
    intro tc
    simp only [buildLoop]
    split_ifs with h1 h2
    · exact ih tc
    · exact absurd h2.2 (by simp; omega)
    · simpa using ih tc

/-- The token estimate is the character count divided by four (integer
division) for every string, the empty string included. -/
theorem estimateTokens_div (text : String) : estimateTokens text = text.length / 4 := by
  unfold estimateTokens
  split_ifs with h
  · rw [h]; rfl
  · rfl

/-! ### Claim theorems -/

/-- Claim C5 (confirmed): `score_file` is modelled by a total Lean function
defined for every path (extension or not), every content string, every
query and every recency list, and its result is always clamped into the
range 0.0-1.0. -/
theorem scoreFile_total_and_bounded (scorer : RelevanceScorer)
    (file_path file_content query : String) :
    0 ≤ scoreFile scorer file_path file_content query ∧
    scoreFile scorer file_path file_content query ≤ 1 := by
  unfold scoreFile
  exact ⟨le_max_left 0 _, max_le (by norm_num) (min_le_left _ _)⟩

/-- Claim C8 (confirmed): the recency bonus is exactly
`0.15 * 0.7 ^ position` for the zero-based position of the path in the
recency list, and exactly `0` when the path is absent (the empty-list case
is an instance of absence). -/
theorem recencyBonus_exponential_decay (scorer : RelevanceScorer) (file_path : String) :
    (file_path ∈ scorer.recent_files →
      calculateRecencyBonus scorer file_path =
        0.15 * 0.7 ^ (scorer.recent_files.indexOf file_path)) ∧
    (file_path ∉ scorer.recent_files → calculateRecencyBonus scorer file_path = 0) := by
  constructor
  · intro hmem
    have hne : scorer.recent_files ≠ [] := by
      rintro hnil
      rw [hnil] at hmem
      exact absurd hmem (List.not_mem_nil file_path)
    simp [calculateRecencyBonus, hne, hmem]
  · intro hmem
    simp [calculateRecencyBonus, hmem]

/-- Witness for C8: concrete evaluations of the recency bonus at positions
0 and 1 of the two-element recency list and at an absent path. -/
theorem recencyBonus_decay_witness :
    calculateRecencyBonus ⟨["a", "b"]⟩ "a" = 0.15 ∧
    calculateRecencyBonus ⟨["a", "b"]⟩ "b" = 0.15 * 0.7 ∧
    calculateRecencyBonus ⟨["a", "b"]⟩ "c" = 0 := by
  refine ⟨?_, ?_, ?_⟩
  · refine ((recencyBonus_exponential_decay ⟨["a", "b"]⟩ "a").1 (by decide)).trans ?_
    rw [show ((⟨["a", "b"]⟩ : RelevanceScorer).recent_files.indexOf "a") = 0 from rfl]
    norm_num
  · refine ((recencyBonus_exponential_decay ⟨["a", "b"]⟩ "b").1 (by decide)).trans ?_
    rw [show ((⟨["a", "b"]⟩ : RelevanceScorer).recent_files.indexOf "b") = 1 from rfl]
    norm_num
  · exact (recencyBonus_exponential_decay ⟨["a", "b"]⟩ "c").2 (by decide)

/-- Claim C9 (confirmed): a per-call `max_tokens` override of `0` is not
used as the budget: since Python `0` is falsy in `max_tokens or
self.max_tokens`, the call behaves exactly as a call without an override
and falls back to the configured default, while every non-zero override is
used as given. -/
theorem zero_max_tokens_override_falls_back :
    (∀ (b : ContextBuilder) (files : List (String × String)) (q : String),
      buildContext b files q (some 0) = buildContext b files q none) ∧
    (∀ d : ℤ, effectiveMaxTokens (some 0) d = d) ∧
    (∀ v d : ℤ, v ≠ 0 → effectiveMaxTokens (some v) d = v) := by
  refine ⟨?_, ?_, ?_⟩
  · intro b files q
    simp [buildContext, effectiveMaxTokens]
  · intro d
    simp [effectiveMaxTokens]
  · intro v d hv
    simp [effectiveMaxTokens, hv]

/-- Witness for C9: the non-zero override 50 is used as the budget. -/
theorem zero_override_fallback_witness :
    (50 : ℤ) ≠ 0 ∧ effectiveMaxTokens (some 50) 4000 = 50 :=
  ⟨by decide, zero_max_tokens_override_falls_back.2.2 50 4000 (by decide)⟩

/-- Claim C10 (confirmed): `build_context` leaves its inputs unchanged.  In
the state-explicit translation `buildContextCall` — which returns the
post-call builder (configuration fields and the scorer with its
`recent_files`), the input file map and the query alongside the result,
mirroring a method body that only reads them — the post-call state equals
the pre-call state, and the result is that of `buildContext`. -/
theorem buildContextCall_preserves_inputs (b : ContextBuilder)
    (files : List (String × String)) (q : String) (ov : Option ℤ) :
    (buildContextCall b files q ov).2.1 = b ∧
    (buildContextCall b files q ov).2.2.1 = files ∧
    (buildContextCall b files q ov).2.2.2 = q ∧
    (buildContextCall b files q ov).1 = buildContext b files q ov := by
  unfold buildContextCall buildContext
  by_cases h : files = [] <;> simp [h]

/-- Claim C2 (confirmed): the returned `token_count` equals the sum of the
estimated token costs of the entries of `full_files`, and the per-file
estimate is one token per four characters (integer division, truncating)
of the fully-formatted representation — the header line with the path plus
the fenced code-block open/close around the raw content — not of the raw
content alone. -/
theorem buildContext_token_count_eq_sum_estimates :
    (∀ (b : ContextBuilder) (files : List (String × String)) (q : String) (ov : Option ℤ),
      (buildContext b files q ov).token_count =
        ((buildContext b files q ov).full_files.map
          (fun f => (estimateFileTokens f.path f.content : ℤ))).sum) ∧
    (∀ p c : String,
      estimateFileTokens p c = ("### " ++ p ++ "\n```\n" ++ c ++ "\n```\n").length / 4) := by
  constructor
  · intro b files q ov
    unfold buildContext
    by_cases h : files = []
    · simp [h]
    · simp only [if_neg h]
      have h2 := buildLoop_token_sum b.min_score_threshold
        (effectiveMaxTokens ov b.max_tokens) b.max_full_files
        ((files.map (fun pc => (pc.1, pc.2, scoreFile b.scorer pc.1 pc.2 q))).insertionSort
          scoreRel) 0 0
      simpa using h2
  · intro p c
    unfold estimateFileTokens
    exact estimateTokens_div _

/-- Concrete score used by the C1 counterexample: an extensionless query
gives no keywords, and `a.tsx` draws only the file-type signal,
`1.0 * 0.25 = 1/4`. -/
theorem scoreFile_atsx_eval : scoreFile {} "a.tsx" "hi" "" = 1/4 := by
  simp only [scoreFile]
  rw [show extractKeywords "" = [] from rfl,
     show calculateKeywordScore "hi" [] = 0 from rfl,
     show getFileTypePriority "a.tsx" = 1.0 from rfl,
     show calculateComponentMatch "a.tsx" "" = 0 from rfl,
     show calculateRouteBonus "a.tsx" "" = 0 from rfl,
     show calculateRecencyBonus {} "a.tsx" = 0 from rfl]
  norm_num [min_def, max_def]

/-- Evaluation of `build_context` under the negative configuration
`max_tokens = -1`, `max_full_files = -1`: the above-threshold file is
demoted to a summary and the token count stays `0`. -/
theorem buildContext_negative_eval :
    buildContext ⟨{}, -1, -1, 0.1⟩ [("a.tsx", "hi")] "" none =
      ⟨[], [⟨"a.tsx", 1, "React component", 1/4⟩], 0⟩ := by
  norm_num [buildContext, List.insertionSort, List.orderedInsert, buildLoop,
    effectiveMaxTokens, scoreFile_atsx_eval, min_def, max_def]
  exact ⟨rfl, rfl⟩

/-- Claim C1 counterexample: with the negative configuration
`max_tokens = -1`, `max_full_files = -1` (which the constructor accepts),
the result of `build_context` on a one-file map violates both claimed
bounds: it returns `full_files = []` and `token_count = 0`, and neither
`0 ≤ -1` holds. -/
theorem contextBuilder_negative_budget_violates_bounds :
    ¬ ((((buildContext ⟨{}, -1, -1, 0.1⟩ [("a.tsx", "hi")] "" none).full_files.length : ℤ) ≤
          (-1 : ℤ)) ∧
       (buildContext ⟨{}, -1, -1, 0.1⟩ [("a.tsx", "hi")] "" none).token_count ≤ (-1 : ℤ)) := by
  rw [buildContext_negative_eval]
  decide

/-- Claim C1 (corrected): the bounds hold for every input file map, query
and per-call override once the configuration's effective token budget and
`max_full_files` are nonnegative; for negative budgets the code's result
(`token_count = 0`, `full_files = []`) exceeds the claimed bound, see the
counterexample. -/
theorem buildContext_respects_budgets_of_nonneg_config
    (b : ContextBuilder) (files : List (String × String)) (q : String) (ov : Option ℤ)
    (hmt : 0 ≤ effectiveMaxTokens ov b.max_tokens) (hmf : 0 ≤ b.max_full_files) :
    ((buildContext b files q ov).full_files.length : ℤ) ≤ b.max_full_files ∧
    (buildContext b files q ov).token_count ≤ effectiveMaxTokens ov b.max_tokens := by
  unfold buildContext
  by_cases h : files = []
  · simpa [h] using ⟨hmf, hmt⟩
  · simp only [if_neg h]
    have hb := buildLoop_bounds b.min_score_threshold
      (effectiveMaxTokens ov b.max_tokens) b.max_full_files
      ((files.map (fun pc => (pc.1, pc.2, scoreFile b.scorer pc.1 pc.2 q))).insertionSort
        scoreRel) 0 0 hmt (by simpa using hmf)
    exact ⟨by simpa using hb.2, by simpa using hb.1⟩

/-- Witness for the corrected C1: the default configuration (budget 4000,
cap 5) is nonnegative and the bounds hold on a concrete one-file input. -/
theorem buildContext_budgets_witness :
    0 ≤ effectiveMaxTokens none ({} : ContextBuilder).max_tokens ∧
    0 ≤ ({} : ContextBuilder).max_full_files ∧
    (((buildContext {} [("a.tsx", "hi")] "" none).full_files.length : ℤ) ≤
        ({} : ContextBuilder).max_full_files ∧
      (buildContext {} [("a.tsx", "hi")] "" none).token_count ≤
        effectiveMaxTokens none ({} : ContextBuilder).max_tokens) :=
  ⟨by decide, by decide,
    buildContext_respects_budgets_of_nonneg_config {} [("a.tsx", "hi")] "" none
      (by decide) (by decide)⟩

/-- Concrete score used by the C3 counterexample (the input of the
repository's own test `test_summary_has_correct_fields`): no keyword of
"test" occurs in the content, the file-type signal gives `1.0 * 0.25` and
the component-name signal gives `0.3 * 0.2`, so the score is `31/100`. -/
theorem scoreFile_test_tsx_eval :
    scoreFile {} "components/Test.tsx" "line1\nline2\nline3" "test" = 31/100 := by
  have hk : calculateKeywordScore "line1\nline2\nline3" ["test"] = 0 := by
    simp only [calculateKeywordScore]
    rw [if_neg (by decide : ¬ (["test"] : List String) = [])]
    rw [show (["test"].countP (fun kw => pyIn kw (pyLower "line1\nline2\nline3"))) = 0 from
      rfl]
    norm_num [min_def]
  simp only [scoreFile]
  rw [show extractKeywords "test" = ["test"] from rfl, hk,
     show getFileTypePriority "components/Test.tsx" = 1.0 from rfl,
     show calculateComponentMatch "components/Test.tsx" "test" = 0.3 from rfl,
     show calculateRouteBonus "components/Test.tsx" "test" = 0 from rfl,
     show calculateRecencyBonus {} "components/Test.tsx" = 0 from rfl]
  norm_num [min_def, max_def]

/-- Claim C3 counterexample: constructing with `max_full_files = 0` (a
zero budget the claim says must be rejected) succeeds — `__init__` stores
the value without validation — and the resulting builder then produces a
silently-empty `full_files` on a file map whose single file scores above
the threshold (this is exactly what the repository's own test
`test_summary_has_correct_fields` relies on). -/
theorem contextBuilder_init_accepts_zero_cap :
    (ContextBuilder.init none MAX_CONTEXT_TOKENS 0 MIN_SCORE_THRESHOLD).max_full_files = 0 ∧
    (ContextBuilder.init none MAX_CONTEXT_TOKENS 0 MIN_SCORE_THRESHOLD).max_tokens = 4000 ∧
    buildContext (ContextBuilder.init none MAX_CONTEXT_TOKENS 0 MIN_SCORE_THRESHOLD)
        [("components/Test.tsx", "line1\nline2\nline3")] "test" none =
      ⟨[], [⟨"components/Test.tsx", 3, "React component", 31/100⟩], 0⟩ := by
  refine ⟨rfl, rfl, ?_⟩
  norm_num [buildContext, ContextBuilder.init, List.insertionSort, List.orderedInsert,
    buildLoop, effectiveMaxTokens, scoreFile_test_tsx_eval, MIN_SCORE_THRESHOLD,
    MAX_CONTEXT_TOKENS, min_def, max_def]
  exact ⟨rfl, rfl⟩

/-- Claim C3 (corrected): construction performs no validation at all — a
Context Builder with a negative or zero `max_full_files` or `max_tokens`
constructs successfully, retains the given values, and `build_context`
then completes normally; with a non-positive `max_full_files` every
above-threshold file lands in `summaries` and `full_files` is empty (the
silently-empty outcome the original claim says is prevented). -/
theorem contextBuilder_init_no_validation (scorer : Option RelevanceScorer)
    (mt mff : ℤ) (thr : ℚ) :
    (ContextBuilder.init scorer mt mff thr).max_tokens = mt ∧
    (ContextBuilder.init scorer mt mff thr).max_full_files = mff ∧
    (ContextBuilder.init scorer mt mff thr).min_score_threshold = thr ∧
    (mff ≤ 0 → ∀ (files : List (String × String)) (q : String) (ov : Option ℤ),
      (buildContext (ContextBuilder.init scorer mt mff thr) files q ov).full_files = []) := by
  refine ⟨rfl, rfl, rfl, ?_⟩
  intro hmf files q ov
  unfold buildContext
  by_cases h : files = []
  · simp [h]
  · simp only [if_neg h]
    simpa [ContextBuilder.init] using
      buildLoop_full_nil thr (effectiveMaxTokens ov mt) mff hmf
        ((files.map (fun pc =>
          (pc.1, pc.2, scoreFile (ContextBuilder.init scorer mt mff thr).scorer
            pc.1 pc.2 q))).insertionSort scoreRel) 0

/-- Witness for the corrected C3: a builder constructed with the negative
cap `-2` yields an empty `full_files` on a concrete input. -/
theorem init_no_validation_witness :
    (buildContext (ContextBuilder.init none 50 (-2) 0.1) [("x.ts", "hello world")]
      "hello" none).full_files = [] :=
  (contextBuilder_init_no_validation none 50 (-2) 0.1).2.2.2 (by decide)
    [("x.ts", "hello world")] "hello" none

/-- Claim C4 (confirmed): the paths of `full_files` and `summaries`
together are a permutation of the paths of exactly the input files whose
score reaches `min_score_threshold` — every such file is in exactly one of
the two lists of the result and every below-threshold file is in neither —
and when the input map's keys are distinct (as Python dict keys are) the
combined output contains no duplicate path, so no path is in both lists or
twice in either. -/
theorem buildContext_partitions_threshold_files
    (b : ContextBuilder) (files : List (String × String)) (q : String) (ov : Option ℤ) :
    ((buildContext b files q ov).full_files.map FileContent.path ++
     (buildContext b files q ov).summaries.map FileSummary.path).Perm
      ((files.filter (fun pc =>
        decide (b.min_score_threshold ≤ scoreFile b.scorer pc.1 pc.2 q))).map Prod.fst) ∧
    ((files.map Prod.fst).Nodup →
      ((buildContext b files q ov).full_files.map FileContent.path ++
       (buildContext b files q ov).summaries.map FileSummary.path).Nodup) := by
  have hperm : ((buildContext b files q ov).full_files.map FileContent.path ++
      (buildContext b files q ov).summaries.map FileSummary.path).Perm
      ((files.filter (fun pc =>
        decide (b.min_score_threshold ≤ scoreFile b.scorer pc.1 pc.2 q))).map Prod.fst) := by
    unfold buildContext
    by_cases h : files = []
    · subst h; simp
    · simp only [if_neg h]
      have h1 := buildLoop_perm b.min_score_threshold
        (effectiveMaxTokens ov b.max_tokens) b.max_full_files
        ((files.map (fun pc => (pc.1, pc.2, scoreFile b.scorer pc.1 pc.2 q))).insertionSort
          scoreRel) 0 0
      have h2 : (((files.map (fun pc =>
            (pc.1, pc.2, scoreFile b.scorer pc.1 pc.2 q))).insertionSort scoreRel).filter
              (fun t => decide (b.min_score_threshold ≤ t.2.2))).Perm
          ((files.map (fun pc => (pc.1, pc.2, scoreFile b.scorer pc.1 pc.2 q))).filter
              (fun t => decide (b.min_score_threshold ≤ t.2.2))) :=
        (List.perm_insertionSort scoreRel _).filter _
      have h4 : (files.map (fun pc =>
            (pc.1, pc.2, scoreFile b.scorer pc.1 pc.2 q))).filter
              (fun t => decide (b.min_score_threshold ≤ t.2.2)) =
          (files.filter (fun pc =>
            decide (b.min_score_threshold ≤ scoreFile b.scorer pc.1 pc.2 q))).map
            (fun pc => (pc.1, pc.2, scoreFile b.scorer pc.1 pc.2 q)) := by
        rw [List.filter_map]
        rfl
      have h3 := h2.map (fun t : String × String × ℚ => t.1)
      rw [h4, List.map_map] at h3
      exact List.Perm.trans (by simpa using h1) h3
  refine ⟨hperm, ?_⟩
  intro hnd
  refine hperm.nodup_iff.mpr ?_
  exact List.Nodup.sublist (List.Sublist.map Prod.fst (List.filter_sublist files)) hnd

/-- Witness for C4: a concrete two-file map with distinct keys yields a
duplicate-free combined output. -/
theorem buildContext_partition_witness :
    ((([("a.tsx", "hi"), ("b.css", "x")] : List (String × String)).map Prod.fst).Nodup) ∧
    ((buildContext {} [("a.tsx", "hi"), ("b.css", "x")] "style" none).full_files.map
        FileContent.path ++
      (buildContext {} [("a.tsx", "hi"), ("b.css", "x")] "style" none).summaries.map
        FileSummary.path).Nodup :=
  ⟨by decide,
    (buildContext_partitions_threshold_files {} [("a.tsx", "hi"), ("b.css", "x")] "style"
      none).2 (by decide)⟩

/-- Ordering and stability of the selection loop applied to the sorted
scored list: both output lists are in non-increasing score order, and each
equal-score class of each output list is a sublist (in order) of the
scored input list's paths. -/
theorem loopSort_props (thr : ℚ) (eff mff : ℤ) (scored : List (String × String × ℚ)) :
    ((buildLoop thr eff mff (scored.insertionSort scoreRel) 0 0).1.Pairwise
      (fun x y => y.score ≤ x.score)) ∧
    ((buildLoop thr eff mff (scored.insertionSort scoreRel) 0 0).2.1.Pairwise
      (fun x y => y.score ≤ x.score)) ∧
    (∀ c : ℚ,
      ((((buildLoop thr eff mff (scored.insertionSort scoreRel) 0 0).1.filter
          (fun f => decide (f.score = c))).map FileContent.path).Sublist
        (scored.map (fun t => t.1)) ∧
      (((buildLoop thr eff mff (scored.insertionSort scoreRel) 0 0).2.1.filter
          (fun f => decide (f.score = c))).map FileSummary.path).Sublist
        (scored.map (fun t => t.1)))) := by
  have hsorted_pw : (scored.insertionSort scoreRel).Pairwise scoreRel :=
    List.sorted_insertionSort scoreRel scored
  have hsub := buildLoop_sublist thr eff mff (scored.insertionSort scoreRel) 0 0
  have hmap_pw : ((scored.insertionSort scoreRel).map (fun t => (t.1, t.2.2))).Pairwise
      (fun a b : String × ℚ => b.2 ≤ a.2) := by
    rw [List.pairwise_map]
    exact hsorted_pw
  refine ⟨?_, ?_, ?_⟩
  · have h1 := List.Pairwise.sublist hsub.1 hmap_pw
    rw [List.pairwise_map] at h1
    exact h1
  · have h1 := List.Pairwise.sublist hsub.2 hmap_pw
    rw [List.pairwise_map] at h1
    exact h1
  · intro c
    have hC := insertionSort_filter_score c scored
    constructor
    · have hA := List.Sublist.filter (fun x : String × ℚ => decide (x.2 = c)) hsub.1
      rw [List.filter_map, List.filter_map] at hA
      have hB := List.Sublist.map Prod.fst hA
      rw [List.map_map, List.map_map] at hB
      have hB' : ((((buildLoop thr eff mff (scored.insertionSort scoreRel) 0 0).1.filter
            (fun f => decide (f.score = c))).map FileContent.path).Sublist
          (((scored.insertionSort scoreRel).filter
            (fun t => decide (t.2.2 = c))).map (fun t => t.1))) := hB
      rw [hC] at hB'
      exact hB'.trans (List.Sublist.map _ (List.filter_sublist scored))
    · have hA := List.Sublist.filter (fun x : String × ℚ => decide (x.2 = c)) hsub.2
      rw [List.filter_map, List.filter_map] at hA
      have hB := List.Sublist.map Prod.fst hA
      rw [List.map_map, List.map_map] at hB
      have hB' : ((((buildLoop thr eff mff (scored.insertionSort scoreRel) 0 0).2.1.filter
            (fun f => decide (f.score = c))).map FileSummary.path).Sublist
          (((scored.insertionSort scoreRel).filter
            (fun t => decide (t.2.2 = c))).map (fun t => t.1))) := hB
      rw [hC] at hB'
      exact hB'.trans (List.Sublist.map _ (List.filter_sublist scored))

/-- Claim C6 (confirmed): `build_context` orders deterministically by score
descending with a stable tie-break.  `full_files` and `summaries` are each
in non-increasing score order, and for every score value `c` the entries
of an output list scoring exactly `c`, projected to paths, form a sublist
(in order) of the input map's key sequence — so two equal-scored files
that land in the same output list appear there in the input map's
iteration order (Python's stable sort keeps ties in original order, and
the single-pass loop never reorders). -/
theorem buildContext_ordered_and_stable
    (b : ContextBuilder) (files : List (String × String)) (q : String) (ov : Option ℤ) :
    (buildContext b files q ov).full_files.Pairwise (fun x y => y.score ≤ x.score) ∧
    (buildContext b files q ov).summaries.Pairwise (fun x y => y.score ≤ x.score) ∧
    ∀ c : ℚ,
      ((((buildContext b files q ov).full_files.filter
          (fun f => decide (f.score = c))).map FileContent.path).Sublist
        (files.map Prod.fst)) ∧
      ((((buildContext b files q ov).summaries.filter
          (fun f => decide (f.score = c))).map FileSummary.path).Sublist
        (files.map Prod.fst)) := by
  unfold buildContext
  by_cases h : files = []
  · subst h; simp
  · simp only [if_neg h]
    have hp := loopSort_props b.min_score_threshold (effectiveMaxTokens ov b.max_tokens)
      b.max_full_files (files.map (fun pc => (pc.1, pc.2, scoreFile b.scorer pc.1 pc.2 q)))
    rw [List.map_map] at hp
    refine ⟨by simpa using hp.1, by simpa using hp.2.1, fun c => ⟨?_, ?_⟩⟩
    · simpa using (hp.2.2 c).1
    · simpa using (hp.2.2 c).2

/-- Claim C7 (confirmed): keyword extraction lowercases, splits on
whitespace and the fixed punctuation set, and discards stop words and
tokens shorter than 3 characters, so no stop word or sub-3-character token
is ever returned; "make the header blue" yields exactly
`["header", "blue"]` and the empty query yields `[]`. -/
theorem extractKeywords_stopword_filtered :
    (∀ (q w : String), w ∈ extractKeywords q → 3 ≤ w.length ∧ w ∉ STOP_WORDS) ∧
    extractKeywords "make the header blue" = ["header", "blue"] ∧
    extractKeywords "" = [] := by
  refine ⟨?_, by rfl, by rfl⟩
  intro q w hw
  unfold extractKeywords at hw
  rw [List.mem_filter] at hw
  obtain ⟨-, h2⟩ := hw
  rw [Bool.and_eq_true] at h2
  refine ⟨of_decide_eq_true h2.1, ?_⟩
  intro hmem
  have h3 := h2.2
  have h4 : STOP_WORDS.contains w = true := by simpa using hmem
  rw [h4] at h3
  exact absurd h3 (by decide)

/-- Witness for C7: the keyword "header" extracted from a concrete query
is at least 3 characters long and is not a stop word. -/
theorem extractKeywords_filtered_witness :
    3 ≤ ("header" : String).length ∧ ("header" : String) ∉ STOP_WORDS :=
  extractKeywords_stopword_filtered.1 "make the header blue" "header" (by decide)
